import Mathlib

/-!
Verification of the per-game streaming broadcaster of the `nba_commentary`
repository.

The development shallowly embeds the Python source:

* `Json` models the JSON-ish Python values (dicts, lists, strings, numbers,
  `None`) that flow between the upstream client and the service.
* Helpers prefixed `py` model the Python primitives the source uses
  (`dict.get`, truthiness, subscripting, the `in` operator, `max(..., key=...)`,
  `seq[-1]`), each returning `Except String _` whose `.error` case models the
  Python exception the primitive would raise (the error string names the
  Python exception class).
* `format_play_by_play` embeds `SimulationNBAClient._format_play_by_play`
  (src/backend/app/api/nba/simulation_client.py).
* `ServiceState` with `start_game_stream` / `add_subscriber` /
  `remove_subscriber` / `streamStep` embeds `GameService`
  (src/backend/app/services/game_service.py); `websocket_join` embeds the
  subscription sequence of `websocket_endpoint`
  (src/backend/app/api/routes/streams.py).

Modelling conventions: asyncio queues are identified by natural-number ids;
`asyncio.create_task` handles are `GameTask` records held in a registry of
live tasks; one iteration of `_stream_game_updates` is the atomic step
`streamStep`; `datetime.now().isoformat()` is passed in as the `now`
parameter.
-/

namespace NbaCommentary

/-- JSON-ish Python value. `obj` keeps insertion order; keys are unique in
every value the code builds (Python dicts), and lookups take the first
binding. -/
inductive Json where
  | null
  | bool (b : Bool)
  | num (n : Int)
  | str (s : String)
  | arr (items : List Json)
  | obj (fields : List (String × Json))

mutual

/-- Structural equality test for `Json` (deriving is unavailable for this
nested inductive, so the instance is built by hand). -/
def Json.beq : Json → Json → Bool
  | Json.null, Json.null => true
  | Json.bool a, Json.bool b => a == b
  | Json.num a, Json.num b => a == b
  | Json.str a, Json.str b => a == b
  | Json.arr a, Json.arr b => Json.beqList a b
  | Json.obj a, Json.obj b => Json.beqFields a b
  | _, _ => false

/-- Elementwise `Json.beq` on lists. -/
def Json.beqList : List Json → List Json → Bool
  | [], [] => true
  | x :: xs, y :: ys => Json.beq x y && Json.beqList xs ys
  | _, _ => false

/-- Elementwise `Json.beq` on dict field lists. -/
def Json.beqFields : List (String × Json) → List (String × Json) → Bool
  | [], [] => true
  | (k, v) :: xs, (l, w) :: ys => k == l && Json.beq v w && Json.beqFields xs ys
  | _, _ => false

end

mutual

theorem Json.eq_of_beq : ∀ (a b : Json), Json.beq a b = true → a = b
  | Json.null, Json.null, _ => rfl
  | Json.bool a, Json.bool b, h => by
      simp only [Json.beq, beq_iff_eq] at h; rw [h]
  | Json.num a, Json.num b, h => by
      simp only [Json.beq, beq_iff_eq] at h; rw [h]
  | Json.str a, Json.str b, h => by
      simp only [Json.beq, beq_iff_eq] at h; rw [h]
  | Json.arr a, Json.arr b, h => by
      rw [Json.eqList_of_beqList a b h]
  | Json.obj a, Json.obj b, h => by
      rw [Json.eqFields_of_beqFields a b h]
  | Json.null, Json.bool _, h => Bool.noConfusion h
  | Json.null, Json.num _, h => Bool.noConfusion h
  | Json.null, Json.str _, h => Bool.noConfusion h
  | Json.null, Json.arr _, h => Bool.noConfusion h
  | Json.null, Json.obj _, h => Bool.noConfusion h
  | Json.bool _, Json.null, h => Bool.noConfusion h
  | Json.bool _, Json.num _, h => Bool.noConfusion h
  | Json.bool _, Json.str _, h => Bool.noConfusion h
  | Json.bool _, Json.arr _, h => Bool.noConfusion h
  | Json.bool _, Json.obj _, h => Bool.noConfusion h
  | Json.num _, Json.null, h => Bool.noConfusion h
  | Json.num _, Json.bool _, h => Bool.noConfusion h
  | Json.num _, Json.str _, h => Bool.noConfusion h
  | Json.num _, Json.arr _, h => Bool.noConfusion h
  | Json.num _, Json.obj _, h => Bool.noConfusion h
  | Json.str _, Json.null, h => Bool.noConfusion h
  | Json.str _, Json.bool _, h => Bool.noConfusion h
  | Json.str _, Json.num _, h => Bool.noConfusion h
  | Json.str _, Json.arr _, h => Bool.noConfusion h
  | Json.str _, Json.obj _, h => Bool.noConfusion h
  | Json.arr _, Json.null, h => Bool.noConfusion h
  | Json.arr _, Json.bool _, h => Bool.noConfusion h
  | Json.arr _, Json.num _, h => Bool.noConfusion h
  | Json.arr _, Json.str _, h => Bool.noConfusion h
  | Json.arr _, Json.obj _, h => Bool.noConfusion h
  | Json.obj _, Json.null, h => Bool.noConfusion h
  | Json.obj _, Json.bool _, h => Bool.noConfusion h
  | Json.obj _, Json.num _, h => Bool.noConfusion h
  | Json.obj _, Json.str _, h => Bool.noConfusion h
  | Json.obj _, Json.arr _, h => Bool.noConfusion h

theorem Json.eqList_of_beqList : ∀ (a b : List Json), Json.beqList a b = true → a = b
  | [], [], _ => rfl
  | x :: xs, y :: ys, h => by
      simp only [Json.beqList, Bool.and_eq_true] at h
      rw [Json.eq_of_beq x y h.1, Json.eqList_of_beqList xs ys h.2]
  | [], _ :: _, h => Bool.noConfusion h
  | _ :: _, [], h => Bool.noConfusion h

theorem Json.eqFields_of_beqFields :
    ∀ (a b : List (String × Json)), Json.beqFields a b = true → a = b
  | [], [], _ => rfl
  | (k, v) :: xs, (l, w) :: ys, h => by
      simp only [Json.beqFields, Bool.and_eq_true, beq_iff_eq] at h
      rw [h.1.1, Json.eq_of_beq v w h.1.2, Json.eqFields_of_beqFields xs ys h.2]
  | [], _ :: _, h => Bool.noConfusion h
  | _ :: _, [], h => Bool.noConfusion h

end

mutual

theorem Json.beq_refl : ∀ (a : Json), Json.beq a a = true
  | Json.null => rfl
  | Json.bool a => by simp [Json.beq]
  | Json.num a => by simp [Json.beq]
  | Json.str a => by simp [Json.beq]
  | Json.arr a => Json.beqList_refl a
  | Json.obj a => Json.beqFields_refl a

theorem Json.beqList_refl : ∀ (a : List Json), Json.beqList a a = true
  | [] => rfl
  | x :: xs => by
      simp only [Json.beqList, Bool.and_eq_true]
      exact ⟨Json.beq_refl x, Json.beqList_refl xs⟩

theorem Json.beqFields_refl : ∀ (a : List (String × Json)), Json.beqFields a a = true
  | [] => rfl
  | (k, v) :: xs => by
      simp [Json.beqFields, Json.beq_refl v, Json.beqFields_refl xs]

end

instance : DecidableEq Json := fun a b =>
  if h : Json.beq a b = true then Decidable.isTrue (Json.eq_of_beq a b h)
  else Decidable.isFalse (fun he => h (he ▸ Json.beq_refl a))

instance {α β : Type} [DecidableEq α] [DecidableEq β] : DecidableEq (Except α β) := fun a b =>
  match a, b with
  | Except.ok x, Except.ok y =>
      if h : x = y then Decidable.isTrue (by rw [h])
      else Decidable.isFalse (fun c => h (by cases c; rfl))
  | Except.error x, Except.error y =>
      if h : x = y then Decidable.isTrue (by rw [h])
      else Decidable.isFalse (fun c => h (by cases c; rfl))
  | Except.ok _, Except.error _ => Decidable.isFalse (fun c => Except.noConfusion c)
  | Except.error _, Except.ok _ => Decidable.isFalse (fun c => Except.noConfusion c)

/-- Python truthiness (`bool(v)`). -/
def pyTruthy : Json → Bool
  | Json.null => false
  | Json.bool b => b
  | Json.num n => decide (n ≠ 0)
  | Json.str s => decide (s ≠ "")
  | Json.arr items => decide (items ≠ [])
  | Json.obj fields => decide (fields ≠ [])

/-- First binding for a key in a dict's field list. -/
def fieldGet : List (String × Json) → String → Option Json
  | [], _ => none
  | (k, v) :: rest, key => if k = key then some v else fieldGet rest key

/-- Python `v.get(key, dflt)`: only dicts have `.get`; any other receiver
raises `AttributeError`. -/
def pyGetD (v : Json) (key : String) (dflt : Json) : Except String Json :=
  match v with
  | Json.obj fields => Except.ok ((fieldGet fields key).getD dflt)
  | _ => Except.error "AttributeError"

/-- Python `v[key]` for a string key: dict lookup (`KeyError` when absent),
`TypeError` on non-dicts. -/
def pySubscript (v : Json) (key : String) : Except String Json :=
  match v with
  | Json.obj fields =>
      match fieldGet fields key with
      | some x => Except.ok x
      | none => Except.error "KeyError"
  | _ => Except.error "TypeError"

/-- Python `key in v` for a string key: dict key membership, list element
membership, substring test on strings, `TypeError` otherwise. -/
def pyIn (key : String) (v : Json) : Except String Bool :=
  match v with
  | Json.obj fields => Except.ok (fieldGet fields key).isSome
  | Json.arr items => Except.ok (items.contains (Json.str key))
  | Json.str s => Except.ok (if key = "" then true else (s.splitOn key).length > 1)
  | _ => Except.error "TypeError"

/-- Python iteration `for x in v`: list elements, dict keys, string
characters; `TypeError` otherwise. -/
def pyIter (v : Json) : Except String (List Json) :=
  match v with
  | Json.arr items => Except.ok items
  | Json.obj fields => Except.ok (fields.map (fun p => Json.str p.1))
  | Json.str s => Except.ok (s.toList.map (fun c => Json.str c.toString))
  | _ => Except.error "TypeError"

/-- Python `str(v)` as used in f-strings. Container reprs are abstracted to a
fixed token; the source only ever formats scalars here. -/
def pyStr : Json → String
  | Json.null => "None"
  | Json.bool true => "True"
  | Json.bool false => "False"
  | Json.num n => toString n
  | Json.str s => s
  | Json.arr _ => "[...]"
  | Json.obj _ => "\x7b...\x7d"

/-- Python `a > b`: numeric and string comparisons; mixed types raise
`TypeError`. -/
def pyGt (a b : Json) : Except String Bool :=
  match a, b with
  | Json.num x, Json.num y => Except.ok (decide (y < x))
  | Json.str x, Json.str y => Except.ok (decide (y < x))
  | _, _ => Except.error "TypeError"

/-- Python `v[-1]`: last element of a list or string (`IndexError` when
empty), `KeyError` on dicts, `TypeError` otherwise. -/
def pyLastItem (v : Json) : Except String Json :=
  match v with
  | Json.arr items =>
      match items.getLast? with
      | some x => Except.ok x
      | none => Except.error "IndexError"
  | Json.str s =>
      match s.toList.getLast? with
      | some c => Except.ok (Json.str c.toString)
      | none => Except.error "IndexError"
  | Json.obj _ => Except.error "KeyError"
  | _ => Except.error "TypeError"

/-- Loop of Python `max(periods, key=lambda p: p.get('number', 0))`: keeps
the current best, replacing it only on a strictly greater key (so the first
maximal element wins, as in CPython). -/
def maxByNumberGo : List Json → Json → Json → Except String Json
  | [], best, _ => Except.ok best
  | y :: ys, best, kb => do
      let ky ← pyGetD y "number" (Json.num 0)
      let g ← pyGt ky kb
      if g then maxByNumberGo ys y ky else maxByNumberGo ys best kb

/-- Python `max(periods, key=lambda p: p.get('number', 0))`
(simulation_client.py line 266); `ValueError` on an empty list. -/
def maxByNumber (l : List Json) : Except String Json :=
  match l with
  | [] => Except.error "ValueError"
  | x :: xs => do
      let kx ← pyGetD x "number" (Json.num 0)
      maxByNumberGo xs x kx

/-- The `for stat in latest_event['statistics']` loop of
`_format_play_by_play`: first statistics entry with a `player` carrying a
`full_name` yields that name (stringified); the loop breaks there. -/
def findPlayerName : List Json → Except String (Option String)
  | [] => Except.ok none
  | stat :: rest => do
      let hasPlayer ← pyIn "player" stat
      if hasPlayer then do
        let player ← pySubscript stat "player"
        let hasName ← pyIn "full_name" player
        if hasName then do
          let nm ← pySubscript player "full_name"
          Except.ok (some (pyStr nm))
        else findPlayerName rest
      else findPlayerName rest

/-- Result of `_format_play_by_play` when the payload is falsy. -/
def errNoData : Json :=
  Json.obj [("type", Json.str "error"), ("message", Json.str "No data received from API")]

/-- Result of `_format_play_by_play` when `data.get('periods')` is falsy. -/
def waitNoPeriods : Json :=
  Json.obj [("type", Json.str "waiting"), ("message", Json.str "No periods data available")]

/-- Result of `_format_play_by_play` when the current period's events are
falsy. -/
def waitNoEvents : Json :=
  Json.obj [("type", Json.str "waiting"), ("message", Json.str "No events in current period")]

/-- The shot-details step of `_format_play_by_play` (simulation_client.py
lines 280-285): when the event type is `shot` and both shot fields are
truthy, append them to the description (a `+=` that needs a string on the
left). -/
def describeShot (latest d0 et : Json) : Except String Json :=
  if et = Json.str "shot" then do
    let st ← pyGetD latest "shot_type" (Json.str "")
    let sd ← pyGetD latest "shot_distance" (Json.str "")
    if pyTruthy st && pyTruthy sd then
      match d0 with
      | Json.str d =>
          Except.ok (Json.str (d ++ " (" ++ pyStr st ++ " from " ++ pyStr sd ++ "ft)"))
      | _ => Except.error "TypeError"
    else Except.ok d0
  else Except.ok d0

/-- The player-name step of `_format_play_by_play` (simulation_client.py
lines 287-292): when the event has a `statistics` key, prefix the name of
the first player found in it. -/
def prefixPlayer (latest d1 : Json) (hasStats : Bool) : Except String Json :=
  if hasStats then do
    let stats ← pySubscript latest "statistics"
    let items ← pyIter stats
    let nm ← findPlayerName items
    match nm with
    | some n => Except.ok (Json.str (n ++ ": " ++ pyStr d1))
    | none => Except.ok d1
  else Except.ok d1

/-- Embedding of `SimulationNBAClient._format_play_by_play`
(simulation_client.py lines 249-308). `now` stands for
`datetime.now().isoformat()`, the default timestamp. The `.error` results
model the Python exceptions the function would raise on malformed shapes. -/
def format_play_by_play (now : String) (data : Json) : Except String Json :=
  if pyTruthy data = false then
    Except.ok errNoData
  else do
    let periods0 ← pyGetD data "periods" Json.null
    if pyTruthy periods0 = false then
      Except.ok waitNoPeriods
    else
      match periods0 with
      | Json.arr ps => do
          let cur ← maxByNumber ps
          let events0 ← pyGetD cur "events" (Json.arr [])
          if pyTruthy events0 = false then
            Except.ok waitNoEvents
          else do
            let latest ← pyLastItem events0
            let d0 ← pyGetD latest "description" (Json.str "No description available")
            let et ← pyGetD latest "event_type" Json.null
            let d1 ← describeShot latest d0 et
            let hasStats ← pyIn "statistics" latest
            let d2 ← prefixPlayer latest d1 hasStats
            let gameId ← pyGetD data "id" (Json.str "unknown")
            let clock ← pyGetD latest "clock" (Json.str "00:00")
            let quarter ← pyGetD cur "number" (Json.num 1)
            let home ← pyGetD data "home" (Json.obj [])
            let hs ← pyGetD home "points" (Json.num 0)
            let away ← pyGetD data "away" (Json.obj [])
            let asc ← pyGetD away "points" (Json.num 0)
            let ts ← pyGetD latest "updated" (Json.str now)
            let et2 ← pyGetD latest "event_type" (Json.str "")
            let attr0 ← pyGetD latest "attribution" (Json.obj [])
            let attr ← pyGetD attr0 "name" (Json.str "")
            let stats2 ← pyGetD latest "statistics" (Json.arr [])
            Except.ok (Json.obj
              [("type", Json.str "play"),
               ("game_id", gameId),
               ("clock", clock),
               ("quarter", quarter),
               ("home_score", hs),
               ("away_score", asc),
               ("last_play", Json.obj
                 [("description", d2),
                  ("timestamp", ts),
                  ("event_type", et2),
                  ("attribution", attr),
                  ("statistics", stats2)])])
      | _ => Except.error "TypeError"

/-- Per-game broadcast state, the value of `GameService.active_streams[game_id]`
(game_service.py lines 21-26): the polling task handle, the subscriber set
(modelled as a duplicate-free list of queue ids) and the channel's own queue. -/
structure Channel where
  taskId : Nat
  subscribers : List Nat
  queue : Nat
deriving DecidableEq, Repr

/-- A live `asyncio` task polling for one game. The registry of these models
which polling tasks are currently running: `asyncio.create_task` adds one,
cancellation or completion removes it. -/
structure GameTask where
  id : Nat
  gid : String
deriving DecidableEq, Repr

/-- State of the `GameService` singleton: the `active_streams` dict (as an
association list with unique keys), the registry of live polling tasks, and a
counter supplying fresh ids for queues and tasks. -/
structure ServiceState where
  active_streams : List (String × Channel)
  tasks : List GameTask
  nextId : Nat
deriving DecidableEq, Repr

/-- The fresh `GameService` singleton: empty `active_streams`, no tasks. -/
def emptyState : ServiceState := ⟨[], [], 0⟩

/-- Python `active_streams[gid]` lookup (first binding wins). -/
def findCh (gid : String) : List (String × Channel) → Option Channel
  | [] => none
  | (g, c) :: rest => if g = gid then some c else findCh gid rest

/-- In-place mutation of the channel stored under `gid`. -/
def updCh (gid : String) (f : Channel → Channel) :
    List (String × Channel) → List (String × Channel)
  | [] => []
  | (k, c) :: rest =>
      if k = gid then (k, f c) :: updCh gid f rest else (k, c) :: updCh gid f rest

/-- Python `del active_streams[gid]`. -/
def delCh (gid : String) : List (String × Channel) → List (String × Channel)
  | [] => []
  | (k, c) :: rest => if k = gid then delCh gid rest else (k, c) :: delCh gid rest

/-- Python `set.add`: no-op when the element is already present. -/
def setInsert (q : Nat) (l : List Nat) : List Nat :=
  if q ∈ l then l else q :: l

/-- Embedding of `GameService.start_game_stream` (game_service.py lines
19-27): when no channel exists for `gid`, create one (fresh polling task,
empty subscriber set, fresh queue); return the channel's queue. -/
def start_game_stream (gid : String) (s : ServiceState) : ServiceState × Nat :=
  match findCh gid s.active_streams with
  | some ch => (s, ch.queue)
  | none =>
      let tid := s.nextId
      let qid := s.nextId + 1
      ({ active_streams := (gid, ⟨tid, [], qid⟩) :: s.active_streams,
         tasks := ⟨tid, gid⟩ :: s.tasks,
         nextId := s.nextId + 2 }, qid)

/-- Embedding of `GameService.add_subscriber` (game_service.py lines 29-32):
add the queue to the channel's subscriber set; silently do nothing when no
channel exists for `gid`. -/
def add_subscriber (gid : String) (q : Nat) (s : ServiceState) : ServiceState :=
  match findCh gid s.active_streams with
  | none => s
  | some _ =>
      { s with active_streams := (updCh gid
          (fun ch => { ch with subscribers := setInsert q ch.subscribers }) s.active_streams) }

/-- Embedding of `GameService.remove_subscriber` (game_service.py lines
34-40). The returned flag is `true` when the call raises: Python
`set.remove` raises `KeyError` when the queue is absent, leaving the state
unchanged. When the set empties, the polling task is cancelled (dropped from
the live-task registry) and the channel entry deleted. -/
def remove_subscriber (gid : String) (q : Nat) (s : ServiceState) : ServiceState × Bool :=
  match findCh gid s.active_streams with
  | none => (s, false)
  | some ch =>
      if q ∈ ch.subscribers then
        if ch.subscribers.erase q = [] then
          ({ s with
             active_streams := delCh gid s.active_streams,
             tasks := s.tasks.filter (fun t => decide (t.id ≠ ch.taskId)) }, false)
        else
          ({ s with active_streams := (updCh gid
              (fun c => { c with subscribers := c.subscribers.erase q })
              s.active_streams) }, false)
      else (s, true)

/-- The subscription sequence of `websocket_endpoint` (streams.py lines
16-26) for a fresh connection queue `q`: `add_subscriber` first, then
`start_game_stream` — in that order, as in the source. -/
def websocket_join (gid : String) (q : Nat) (s : ServiceState) : ServiceState :=
  (start_game_stream gid (add_subscriber gid q s)).1

/-- Python `pbp_data.get("status") or pbp_data.get("type")`
(game_service.py line 49). On `None` (and any non-dict) the attribute access
raises `AttributeError`. -/
def statusOf (payload : Json) : Except String Json :=
  match payload with
  | Json.obj fields =>
      let st := (fieldGet fields "status").getD Json.null
      Except.ok (if pyTruthy st then st else (fieldGet fields "type").getD Json.null)
  | _ => Except.error "AttributeError"

/-- Terminal message of the `finished`/`game_over` branch
(game_service.py lines 53-57). -/
def gameOverMsg : Json :=
  Json.obj [("type", Json.str "game_over"), ("message", Json.str "Game has ended")]

/-- Message of the `not_found` branch (game_service.py lines 66-70). -/
def waitingStartMsg : Json :=
  Json.obj [("type", Json.str "waiting"), ("message", Json.str "Waiting for game to start...")]

/-- Outcome of one iteration of `_stream_game_updates`: continue after an
`asyncio.sleep` of the given seconds, stop (the loop `break`s), or die with
an uncaught exception. -/
inductive PollOutcome where
  | next (delaySecs : Nat)
  | stop
  | crash (exc : String)
deriving DecidableEq, Repr

/-- Effect of the task ending (via `break` or an uncaught exception): the
`finally` block deletes the `active_streams` entry when present
(game_service.py lines 89-91), and the task itself is no longer live. -/
def taskDied (gid : String) (s : ServiceState) : ServiceState :=
  { active_streams := delCh gid s.active_streams,
    tasks := s.tasks.filter (fun t => decide (t.gid ≠ gid)),
    nextId := s.nextId }

/-- One iteration of `GameService._stream_game_updates` (game_service.py
lines 44-91) on the freshly fetched `payload` (`None` is `Json.null`).
Returns the messages put on subscriber queues (in subscriber-set order), the
loop outcome, and the service state afterwards. -/
def streamStep (gid : String) (payload : Json) (s : ServiceState) :
    List (Nat × Json) × PollOutcome × ServiceState :=
  match statusOf payload with
  | Except.error e => ([], PollOutcome.crash e, taskDied gid s)
  | Except.ok st =>
    if st = Json.str "finished" ∨ st = Json.str "game_over" then
      match findCh gid s.active_streams with
      | none => ([], PollOutcome.crash "KeyError", taskDied gid s)
      | some ch =>
          (ch.subscribers.map (fun q => (q, gameOverMsg)), PollOutcome.stop, taskDied gid s)
    else if st = Json.str "error" then
      ([], PollOutcome.next 10, s)
    else if st = Json.str "not_found" then
      match findCh gid s.active_streams with
      | none => ([], PollOutcome.crash "KeyError", taskDied gid s)
      | some ch =>
          (ch.subscribers.map (fun q => (q, waitingStartMsg)), PollOutcome.next 30, s)
    else if st = Json.str "waiting" then
      match findCh gid s.active_streams with
      | none => ([], PollOutcome.crash "KeyError", taskDied gid s)
      | some ch =>
          (ch.subscribers.map (fun q => (q, payload)), PollOutcome.next 1, s)
    else
      match findCh gid s.active_streams with
      | none => ([], PollOutcome.crash "KeyError", taskDied gid s)
      | some ch =>
          (ch.subscribers.map (fun q => (q, payload)), PollOutcome.next 3, s)

/-- A public operation on the `GameService` map, as invoked by the transport
layer. -/
inductive Op where
  | start (gid : String)
  | add (gid : String) (q : Nat)
  | remove (gid : String) (q : Nat)
deriving DecidableEq, Repr

/-- State transition of one public operation. A `remove` that raises
`KeyError` does so before mutating anything, so the state is unchanged. -/
def applyOp (op : Op) (s : ServiceState) : ServiceState :=
  match op with
  | Op.start gid => (start_game_stream gid s).1
  | Op.add gid q => add_subscriber gid q s
  | Op.remove gid q => (remove_subscriber gid q s).1

/-- Run a sequence of public operations. -/
def runOps (L : List Op) (s : ServiceState) : ServiceState :=
  L.foldl (fun t op => applyOp op t) s

/-- Live polling tasks for one game identifier. -/
def liveTaskCount (gid : String) (s : ServiceState) : Nat :=
  (s.tasks.filter (fun t => decide (t.gid = gid))).length

/-- Whether an operation sequence never passes the queue `q0` to
`add_subscriber`. -/
def avoidsQueue (q0 : Nat) (L : List Op) : Bool :=
  L.all (fun o =>
    match o with
    | Op.add _ q2 => decide (¬q2 = q0)
    | _ => true)

/-- Service state with one channel for `"G1"` holding the single subscriber
queue `7`: the state reached by `start_game_stream` followed by a correctly
ordered `add_subscriber`. -/
def sOneSub : ServiceState := add_subscriber "G1" 7 (start_game_stream "G1" emptyState).1

/-- The normalized ACTIVE update of the spec's join scenario (clock `05:30`,
quarter 3, home 88, away 85). -/
def scenarioPlayMsg : Json :=
  Json.obj [("type", Json.str "play"), ("game_id", Json.str "G1"),
    ("clock", Json.str "05:30"), ("quarter", Json.num 3),
    ("home_score", Json.num 88), ("away_score", Json.num 85)]

/-- Error payload as produced by `SimulationNBAClient.get_play_by_play` when
the fetch returns no data (simulation_client.py lines 200-204). -/
def errFetchMsg : Json :=
  Json.obj [("type", Json.str "error"),
    ("message", Json.str "Failed to fetch play-by-play data")]

/-- A raw Sportradar play-by-play payload during a game: carries a `status`
field but no normalized `type` field. -/
def rawInprogressMsg : Json :=
  Json.obj [("status", Json.str "inprogress"), ("periods", Json.arr [])]

/-- Sort key of a period as used by `max(..., key=lambda p: p.get('number', 0))`,
for stating which period is highest-numbered (integer `number`, defaulting
to 0). -/
def pnum (p : Json) : Int :=
  match p with
  | Json.obj f =>
      match fieldGet f "number" with
      | some (Json.num n) => n
      | some _ => 0
      | none => 0
  | _ => 0

/-- Total dict get used on the statement side to describe results of
`pyGetD` chains whose receiver is known to be a dict. -/
def dictGetOr (v : Json) (key : String) (dflt : Json) : Json :=
  match v with
  | Json.obj fields => (fieldGet fields key).getD dflt
  | _ => dflt

/-- Whether a value is a Python dict. -/
def isDict (v : Json) : Bool :=
  match v with
  | Json.obj _ => true
  | _ => false

/-- State invariant tying the live-task registry to the channel map: task ids
are distinct and fresh, a game without a channel has no live task, and the
live tasks of a game with a channel are exactly that channel's task. -/
def Inv (s : ServiceState) : Prop :=
  (s.tasks.map GameTask.id).Nodup ∧
  (∀ t ∈ s.tasks, t.id < s.nextId) ∧
  (∀ gid, findCh gid s.active_streams = none → ∀ t ∈ s.tasks, ¬t.gid = gid) ∧
  (∀ gid ch, findCh gid s.active_streams = some ch →
     ∀ t ∈ s.tasks, t.gid = gid → t.id = ch.taskId)

/-- The queue `q` is in no channel's subscriber set. -/
def queueUnregistered (q : Nat) (s : ServiceState) : Prop :=
  ∀ g ch, findCh g s.active_streams = some ch → q ∉ ch.subscribers

theorem findCh_cons (g k : String) (c : Channel) (l : List (String × Channel)) :
    findCh g ((k, c) :: l) = if k = g then some c else findCh g l := rfl

theorem findCh_delCh_self (g : String) (l : List (String × Channel)) :
    findCh g (delCh g l) = none := by
  induction l with
  | nil => rfl
  | cons p rest ih =>
      obtain ⟨k, c⟩ := p
      by_cases h : k = g
      · simp only [delCh, if_pos h, ih]
      · simp only [delCh, if_neg h, findCh, if_neg h, ih]

theorem findCh_delCh_ne (g gid : String) (hne : ¬g = gid) (l : List (String × Channel)) :
    findCh g (delCh gid l) = findCh g l := by
  induction l with
  | nil => rfl
  | cons p rest ih =>
      obtain ⟨k, c⟩ := p
      by_cases h1 : k = gid
      · have h2 : ¬k = g := fun hk => hne (hk ▸ h1)
        simp only [delCh, if_pos h1, ih, findCh, if_neg h2]
      · simp only [delCh, if_neg h1, findCh]
        by_cases h2 : k = g <;> simp [h2, ih]

theorem findCh_updCh_self (g : String) (f : Channel → Channel)
    (l : List (String × Channel)) :
    findCh g (updCh g f l) = Option.map f (findCh g l) := by
  induction l with
  | nil => rfl
  | cons p rest ih =>
      obtain ⟨k, c⟩ := p
      by_cases h : k = g
      · simp only [updCh, if_pos h, findCh, if_pos h, Option.map_some']
      · simp only [updCh, if_neg h, findCh, if_neg h, ih]

theorem findCh_updCh_ne (g gid : String) (hne : ¬g = gid) (f : Channel → Channel)
    (l : List (String × Channel)) :
    findCh g (updCh gid f l) = findCh g l := by
  induction l with
  | nil => rfl
  | cons p rest ih =>
      obtain ⟨k, c⟩ := p
      by_cases h1 : k = gid
      · have h2 : ¬k = g := fun hk => hne (hk ▸ h1)
        simp only [updCh, if_pos h1, findCh, if_neg h2, ih]
      · simp only [updCh, if_neg h1, findCh]
        by_cases h2 : k = g <;> simp [h2, ih]

/-- C1: joining a game with no existing channel does create the channel and
start its polling task, but — because `websocket_endpoint` calls
`add_subscriber` before `start_game_stream` — the joining queue is never
registered, so a subsequent ACTIVE poll (clock `05:30`, quarter 3, 88-85)
delivers nothing: the puts list of the poll step is empty, and in particular
queue 7 never receives the `play` message the claim promises. -/
theorem c1_join_never_registers_subscriber :
    findCh "G1" (websocket_join "G1" 7 emptyState).active_streams =
      some ⟨0, [], 1⟩ ∧
    (websocket_join "G1" 7 emptyState).tasks = [⟨0, "G1"⟩] ∧
    (streamStep "G1" scenarioPlayMsg (websocket_join "G1" 7 emptyState)).1 = [] := by
  decide

/-- C2: `remove_subscriber` is not a no-op on an absent sink — when the
channel exists but the queue is not in its subscriber set, Python
`set.remove` raises `KeyError` (flag `true`) and the claim's
never-raises/idempotence property fails; the state is left unchanged only
because the exception aborts the call. -/
theorem c2_remove_absent_raises_keyerror :
    remove_subscriber "G1" 3 sOneSub = (sOneSub, true) := by decide

/-- C4 counterexample: immediately after `start_game_stream` creates a
channel (one whole public operation, hence past the end of the scheduling
step in which the channel came to have zero subscribers), the channel for
`"G1"` still exists with an empty subscriber set and its polling task is
still live — contradicting the claim that such a channel's task is
cancelled and its map entry removed by the end of that step. -/
theorem c4_empty_channel_persists :
    findCh "G1" ((start_game_stream "G1" emptyState).1).active_streams =
      some ⟨0, [], 1⟩ ∧
    liveTaskCount "G1" (start_game_stream "G1" emptyState).1 = 1 := by decide

/-- C4 (amended): when the subscriber set becomes empty through
`remove_subscriber`, teardown does happen within that same call: no
exception, the channel's map entry is removed, and its polling task is no
longer live. (Channels created by `start_game_stream` start out empty and
persist, per the counterexample.) -/
theorem c4_teardown_on_last_remove (gid : String) (q : Nat) (s : ServiceState) (ch : Channel)
    (hch : findCh gid s.active_streams = some ch) (hsub : ch.subscribers = [q]) :
    (remove_subscriber gid q s).2 = false ∧
    findCh gid (remove_subscriber gid q s).1.active_streams = none ∧
    ∀ t ∈ (remove_subscriber gid q s).1.tasks, t.id ≠ ch.taskId := by
  have hmem : q ∈ ch.subscribers := by rw [hsub]; exact List.mem_singleton_self q
  have herase : ch.subscribers.erase q = [] := by rw [hsub]; simp
  simp only [remove_subscriber, hch]
  rw [if_pos hmem, if_pos herase]
  refine ⟨rfl, ?_, ?_⟩
  · exact findCh_delCh_self gid s.active_streams
  · intro t ht
    simp only [List.mem_filter, decide_eq_true_eq] at ht
    exact ht.2

/-- C4 witness: teardown for a concrete one-subscriber channel. -/
theorem c4_teardown_on_last_remove_witness :
    (remove_subscriber "G1" 7 sOneSub).2 = false ∧
    findCh "G1" (remove_subscriber "G1" 7 sOneSub).1.active_streams = none ∧
    ∀ t ∈ (remove_subscriber "G1" 7 sOneSub).1.tasks, t.id ≠ (0 : Nat) :=
  c4_teardown_on_last_remove "G1" 7 sOneSub ⟨0, [7], 1⟩ (by decide) (by decide)

/-- C5: the classifier `_format_play_by_play` does return a typed status on
the shapes the claim lists — falsy/None input yields the `error` record,
a missing `periods` key, an empty periods list, and an empty events list
yield `waiting` records — but the claim's "never a crash of the polling
loop" part fails: the service polls through `RealNBAClient.get_play_by_play`,
which returns `None` on a failed fetch, and `_stream_game_updates` then
calls `.get` on `None`, raising `AttributeError` and killing the polling
task. -/
theorem c5_classifier_typed_but_loop_crashes_on_none :
    format_play_by_play "T" Json.null = Except.ok errNoData ∧
    format_play_by_play "T" (Json.obj [("id", Json.str "G1")]) = Except.ok waitNoPeriods ∧
    format_play_by_play "T" (Json.obj [("periods", Json.arr [])]) = Except.ok waitNoPeriods ∧
    format_play_by_play "T"
      (Json.obj [("periods",
        Json.arr [Json.obj [("number", Json.num 1), ("events", Json.arr [])]])]) =
      Except.ok waitNoEvents ∧
    (streamStep "G1" Json.null sOneSub).2.1 = PollOutcome.crash "AttributeError" := by
  decide

/-- C6: on a poll whose payload is flagged `error`, the loop indeed puts no
message, changes no state, and continues with the 10-second interval, and a
later ACTIVE poll delivers to the same subscriber — but the claim's
"including the upstream fetch failing and returning no data" part fails: a
fetch returning `None` makes the loop raise `AttributeError` (killing the
task and tearing down the channel) instead of taking the ERROR branch. -/
theorem c6_error_branch_vs_none_crash :
    streamStep "G1" errFetchMsg sOneSub = ([], PollOutcome.next 10, sOneSub) ∧
    streamStep "G1" Json.null sOneSub =
      ([], PollOutcome.crash "AttributeError", taskDied "G1" sOneSub) ∧
    (streamStep "G1" scenarioPlayMsg sOneSub).1 = [(7, scenarioPlayMsg)] := by
  decide

/-- C8 counterexample: with the real client, the ACTIVE fall-through branch
forwards the raw upstream payload verbatim; for an in-progress raw payload
(`status: "inprogress"`, no `type` key) the subscriber receives a message
with no `type` field at all — not a NormalizedUpdate whose type is one of
`play`/`waiting`/`game_over`/`error`. -/
theorem c8_raw_payload_forwarded_untyped :
    (streamStep "G1" rawInprogressMsg sOneSub).1 = [(7, rawInprogressMsg)] ∧
    fieldGet [("status", Json.str "inprogress"), ("periods", Json.arr [])] "type" = none := by
  decide

theorem mem_map_pair {subs : List Nat} {msg : Json} {q : Nat} {m : Json}
    (h : (q, m) ∈ subs.map (fun x => (x, msg))) : q ∈ subs ∧ m = msg := by
  simp only [List.mem_map] at h
  obtain ⟨a, ha, heq⟩ := h
  injection heq with h1 h2
  subst h1
  exact ⟨ha, h2.symm⟩

theorem broadcast_once {msg : Json} (subs : List Nat) :
    subs.Nodup → ∀ q ∈ subs,
      ((subs.map (fun x => (x, msg))).filter (fun pr => decide (pr = (q, msg)))).length = 1 := by
  induction subs with
  | nil => intro _ q hq; cases hq
  | cons a rest ih =>
      intro hnd q hq
      have hnd2 := List.nodup_cons.mp hnd
      simp only [List.map_cons, List.filter_cons]
      rcases List.mem_cons.mp hq with heq | hmem
      · subst heq
        have hrest :
            (rest.map (fun x => (x, msg))).filter (fun pr => decide (pr = (q, msg))) = [] := by
          rw [List.filter_eq_nil_iff]
          intro pr hpr
          simp only [List.mem_map] at hpr
          obtain ⟨x, hx, rfl⟩ := hpr
          simp only [decide_eq_true_eq, Prod.mk.injEq, not_and]
          intro hxq _
          exact hnd2.1 (hxq ▸ hx)
        simp [hrest]
      · have hna : ¬a = q := fun h => hnd2.1 (h ▸ hmem)
        simp only [decide_eq_true_eq, Prod.mk.injEq]
        rw [if_neg (by simp [hna])]
        exact ih hnd2.2 q hmem

/-- C7: on a poll whose effective status (`status` or `type`) is `finished`
or `game_over`, the loop puts exactly one `game_over` message on every
currently-registered sink, then stops polling (`break`) and the channel's
map entry is removed. -/
theorem c7_finished_broadcasts_once_and_tears_down (gid : String) (payload st : Json)
    (s : ServiceState) (ch : Channel)
    (hst : statusOf payload = Except.ok st)
    (hfin : st = Json.str "finished" ∨ st = Json.str "game_over")
    (hch : findCh gid s.active_streams = some ch)
    (hnd : ch.subscribers.Nodup) :
    (streamStep gid payload s).1 = ch.subscribers.map (fun q => (q, gameOverMsg)) ∧
    (∀ q ∈ ch.subscribers,
      ((streamStep gid payload s).1.filter
        (fun pr => decide (pr = (q, gameOverMsg)))).length = 1) ∧
    (streamStep gid payload s).2.1 = PollOutcome.stop ∧
    findCh gid (streamStep gid payload s).2.2.active_streams = none := by
  have hstep : streamStep gid payload s =
      (ch.subscribers.map (fun q => (q, gameOverMsg)), PollOutcome.stop, taskDied gid s) := by
    simp only [streamStep, hst, if_pos hfin, hch]
  rw [hstep]
  refine ⟨rfl, ?_, rfl, ?_⟩
  · intro q hq
    exact broadcast_once ch.subscribers hnd q hq
  · simp only [taskDied]
    exact findCh_delCh_self gid s.active_streams

/-- C7 witness: a concrete finished poll for the one-subscriber channel. -/
theorem c7_finished_broadcasts_once_and_tears_down_witness :
    (streamStep "G1" (Json.obj [("type", Json.str "finished")]) sOneSub).1 =
      [7].map (fun q => (q, gameOverMsg)) ∧
    (∀ q ∈ ([7] : List Nat),
      ((streamStep "G1" (Json.obj [("type", Json.str "finished")]) sOneSub).1.filter
        (fun pr => decide (pr = (q, gameOverMsg)))).length = 1) ∧
    (streamStep "G1" (Json.obj [("type", Json.str "finished")]) sOneSub).2.1 =
      PollOutcome.stop ∧
    findCh "G1"
      (streamStep "G1" (Json.obj [("type", Json.str "finished")]) sOneSub).2.2.active_streams =
      none :=
  c7_finished_broadcasts_once_and_tears_down "G1" (Json.obj [("type", Json.str "finished")])
    (Json.str "finished") sOneSub ⟨0, [7], 1⟩ (by decide) (Or.inl rfl) (by decide) (by decide)

theorem inv_empty : Inv emptyState := by
  refine ⟨?_, ?_, ?_, ?_⟩ <;> simp [emptyState]

theorem tasks_length_le_one (l : List GameTask) (hn : (l.map GameTask.id).Nodup)
    (c : Nat) (h : ∀ t ∈ l, t.id = c) : l.length ≤ 1 := by
  match l with
  | [] => simp
  | [t] => simp
  | t :: u :: rest =>
      exfalso
      have h1 : t.id = c := h t (by simp)
      have h2 : u.id = c := h u (by simp)
      have hmem : t.id ∈ (u :: rest).map GameTask.id := by
        simp only [List.map_cons, List.mem_cons]
        exact Or.inl (h1.trans h2.symm)
      simp only [List.map_cons, List.nodup_cons] at hn
      exact hn.1 hmem

theorem live_le_one_of_inv (s : ServiceState) (h : Inv s) (gid : String) :
    liveTaskCount gid s ≤ 1 := by
  obtain ⟨hnd, _hbound, habs, hpres⟩ := h
  unfold liveTaskCount
  cases hch : findCh gid s.active_streams with
  | none =>
      have hnil : s.tasks.filter (fun t => decide (t.gid = gid)) = [] := by
        rw [List.filter_eq_nil_iff]
        intro t ht
        simp only [decide_eq_true_eq]
        exact habs gid hch t ht
      rw [hnil]
      simp
  | some ch =>
      refine tasks_length_le_one _ ?_ ch.taskId ?_
      · exact ((List.filter_sublist s.tasks).map GameTask.id).nodup hnd
      · intro t ht
        have ht2 := List.mem_filter.mp ht
        exact hpres gid ch hch t ht2.1 (of_decide_eq_true ht2.2)

theorem inv_start (gid : String) (s : ServiceState) (h : Inv s) :
    Inv (start_game_stream gid s).1 := by
  obtain ⟨hnd, hbound, habs, hpres⟩ := h
  cases hch : findCh gid s.active_streams with
  | some ch =>
      simp only [start_game_stream, hch]
      exact ⟨hnd, hbound, habs, hpres⟩
  | none =>
      simp only [start_game_stream, hch]
      refine ⟨?_, ?_, ?_, ?_⟩
      · simp only [List.map_cons, List.nodup_cons]
        refine ⟨?_, hnd⟩
        intro hmem
        simp only [List.mem_map] at hmem
        obtain ⟨t, ht, hid⟩ := hmem
        exact absurd (hid ▸ hbound t ht) (lt_irrefl _)
      · intro t ht
        simp only [List.mem_cons] at ht
        rcases ht with rfl | ht
        · show s.nextId < s.nextId + 2
          omega
        · show t.id < s.nextId + 2
          exact lt_trans (hbound t ht) (by omega)
      · intro g hg t ht
        rw [findCh_cons] at hg
        by_cases hgg : gid = g
        · rw [if_pos hgg] at hg
          exact absurd hg (by simp)
        · rw [if_neg hgg] at hg
          simp only [List.mem_cons] at ht
          rcases ht with rfl | ht
          · simpa using hgg
          · exact habs g hg t ht
      · intro g ch' hg t ht htg
        rw [findCh_cons] at hg
        simp only [List.mem_cons] at ht
        by_cases hgg : gid = g
        · rw [if_pos hgg] at hg
          injection hg with hg
          rcases ht with rfl | ht
          · rw [← hg]
          · exact absurd (htg.trans hgg.symm) (habs gid hch t ht)
        · rw [if_neg hgg] at hg
          rcases ht with rfl | ht
          · exact absurd htg hgg
          · exact hpres g ch' hg t ht htg

theorem inv_add (gid : String) (q : Nat) (s : ServiceState) (h : Inv s) :
    Inv (add_subscriber gid q s) := by
  obtain ⟨hnd, hbound, habs, hpres⟩ := h
  cases hch : findCh gid s.active_streams with
  | none =>
      simp only [add_subscriber, hch]
      exact ⟨hnd, hbound, habs, hpres⟩
  | some ch0 =>
      simp only [add_subscriber, hch]
      refine ⟨hnd, hbound, ?_, ?_⟩
      · intro g hg t ht
        by_cases hgg : g = gid
        · subst hgg
          rw [findCh_updCh_self] at hg
          rw [Option.map_eq_none'] at hg
          exact habs g hg t ht
        · rw [findCh_updCh_ne g gid hgg] at hg
          exact habs g hg t ht
      · intro g ch' hg t ht htg
        by_cases hgg : g = gid
        · subst hgg
          rw [findCh_updCh_self] at hg
          rw [Option.map_eq_some'] at hg
          obtain ⟨c, hc, hfc⟩ := hg
          have : ch'.taskId = c.taskId := by rw [← hfc]
          rw [this]
          exact hpres g c hc t ht htg
        · rw [findCh_updCh_ne g gid hgg] at hg
          exact hpres g ch' hg t ht htg

theorem inv_remove (gid : String) (q : Nat) (s : ServiceState) (h : Inv s) :
    Inv (remove_subscriber gid q s).1 := by
  obtain ⟨hnd, hbound, habs, hpres⟩ := h
  cases hch : findCh gid s.active_streams with
  | none =>
      simp only [remove_subscriber, hch]
      exact ⟨hnd, hbound, habs, hpres⟩
  | some ch =>
      simp only [remove_subscriber, hch]
      by_cases hq : q ∈ ch.subscribers
      · rw [if_pos hq]
        by_cases he : ch.subscribers.erase q = []
        · rw [if_pos he]
          refine ⟨?_, ?_, ?_, ?_⟩
          · exact ((List.filter_sublist s.tasks).map GameTask.id).nodup hnd
          · intro t ht
            exact hbound t (List.mem_filter.mp ht).1
          · intro g hg t ht
            have ht2 := List.mem_filter.mp ht
            by_cases hgg : g = gid
            · subst hgg
              intro htg
              exact absurd (hpres g ch hch t ht2.1 htg)
                (of_decide_eq_true ht2.2)
            · rw [findCh_delCh_ne g gid hgg] at hg
              exact habs g hg t ht2.1
          · intro g ch' hg t ht htg
            by_cases hgg : g = gid
            · subst hgg
              rw [findCh_delCh_self] at hg
              exact absurd hg (by simp)
            · rw [findCh_delCh_ne g gid hgg] at hg
              exact hpres g ch' hg t (List.mem_filter.mp ht).1 htg
        · rw [if_neg he]
          refine ⟨hnd, hbound, ?_, ?_⟩
          · intro g hg t ht
            by_cases hgg : g = gid
            · subst hgg
              rw [findCh_updCh_self, Option.map_eq_none'] at hg
              exact habs g hg t ht
            · rw [findCh_updCh_ne g gid hgg] at hg
              exact habs g hg t ht
          · intro g ch' hg t ht htg
            by_cases hgg : g = gid
            · subst hgg
              rw [findCh_updCh_self, Option.map_eq_some'] at hg
              obtain ⟨c, hc, hfc⟩ := hg
              have : ch'.taskId = c.taskId := by rw [← hfc]
              rw [this]
              exact hpres g c hc t ht htg
            · rw [findCh_updCh_ne g gid hgg] at hg
              exact hpres g ch' hg t ht htg
      · rw [if_neg hq]
        exact ⟨hnd, hbound, habs, hpres⟩

theorem inv_applyOp (op : Op) (s : ServiceState) (h : Inv s) : Inv (applyOp op s) := by
  cases op with
  | start gid => exact inv_start gid s h
  | add gid q => exact inv_add gid q s h
  | remove gid q => exact inv_remove gid q s h

theorem inv_runOps (L : List Op) : ∀ s : ServiceState, Inv s → Inv (runOps L s) := by
  induction L with
  | nil => intro s h; exact h
  | cons op rest ih =>
      intro s h
      exact ih (applyOp op s) (inv_applyOp op s h)

/-- C3: starting from the empty state, after any sequence of public
operations there are at most 1 live polling tasks for any game identifier,
and `start_game_stream` on a game that already has a channel returns the
existing channel's queue, spawns no task, and leaves the whole state
unchanged. -/
theorem c3_at_most_one_task_and_idempotent_start :
    (∀ (L : List Op) (gid : String), liveTaskCount gid (runOps L emptyState) ≤ 1) ∧
    (∀ (s : ServiceState) (gid : String) (ch : Channel),
       findCh gid s.active_streams = some ch → start_game_stream gid s = (s, ch.queue)) := by
  constructor
  · intro L gid
    exact live_le_one_of_inv _ (inv_runOps L emptyState inv_empty) gid
  · intro s gid ch hch
    simp [start_game_stream, hch]

/-- C3 witness: a concrete operation sequence and a concrete second start. -/
theorem c3_at_most_one_task_and_idempotent_start_witness :
    liveTaskCount "G1"
      (runOps [Op.start "G1", Op.add "G1" 5, Op.remove "G1" 5, Op.start "G1"] emptyState) ≤ 1 ∧
    start_game_stream "G1" sOneSub = (sOneSub, 1) :=
  ⟨c3_at_most_one_task_and_idempotent_start.1
      [Op.start "G1", Op.add "G1" 5, Op.remove "G1" 5, Op.start "G1"] "G1",
   c3_at_most_one_task_and_idempotent_start.2 sOneSub "G1" ⟨0, [7], 1⟩ (by decide)⟩

theorem queueUnregistered_applyOp (q : Nat) (op : Op) (s : ServiceState)
    (h : queueUnregistered q s) (hop : ∀ g, op ≠ Op.add g q) :
    queueUnregistered q (applyOp op s) := by
  cases op with
  | start gid =>
      simp only [applyOp]
      cases hch : findCh gid s.active_streams with
      | some ch =>
          simp only [start_game_stream, hch]
          exact h
      | none =>
          simp only [start_game_stream, hch]
          intro g ch hg
          rw [findCh_cons] at hg
          by_cases hgg : gid = g
          · rw [if_pos hgg] at hg
            injection hg with hg
            rw [← hg]
            simp
          · rw [if_neg hgg] at hg
            exact h g ch hg
  | add gid q2 =>
      have hq2 : ¬q2 = q := fun heq => (hop gid) (by rw [heq])
      simp only [applyOp]
      cases hch : findCh gid s.active_streams with
      | none =>
          simp only [add_subscriber, hch]
          exact h
      | some ch0 =>
          simp only [add_subscriber, hch]
          intro g ch hg
          by_cases hgg : g = gid
          · subst hgg
            rw [findCh_updCh_self, Option.map_eq_some'] at hg
            obtain ⟨c, hc, hfc⟩ := hg
            rw [← hfc]
            simp only [setInsert]
            by_cases hdup : q ∈ c.subscribers
            · exact absurd hdup (h g c hc)
            · by_cases hq2m : q2 ∈ c.subscribers
              · rw [if_pos hq2m]
                exact h g c hc
              · rw [if_neg hq2m]
                intro hmem
                rcases List.mem_cons.mp hmem with heq | hmem2
                · exact hq2 heq.symm
                · exact h g c hc hmem2
          · rw [findCh_updCh_ne g gid hgg] at hg
            exact h g ch hg
  | remove gid q2 =>
      simp only [applyOp]
      cases hch : findCh gid s.active_streams with
      | none =>
          simp only [remove_subscriber, hch]
          exact h
      | some ch0 =>
          simp only [remove_subscriber, hch]
          by_cases hq : q2 ∈ ch0.subscribers
          · rw [if_pos hq]
            by_cases he : ch0.subscribers.erase q2 = []
            · rw [if_pos he]
              intro g ch hg
              by_cases hgg : g = gid
              · subst hgg
                rw [findCh_delCh_self] at hg
                exact absurd hg (by simp)
              · rw [findCh_delCh_ne g gid hgg] at hg
                exact h g ch hg
            · rw [if_neg he]
              intro g ch hg
              by_cases hgg : g = gid
              · subst hgg
                rw [findCh_updCh_self, Option.map_eq_some'] at hg
                obtain ⟨c, hc, hfc⟩ := hg
                rw [← hfc]
                intro hmem
                exact h g c hc (List.mem_of_mem_erase hmem)
              · rw [findCh_updCh_ne g gid hgg] at hg
                exact h g ch hg
          · rw [if_neg hq]
            exact h

theorem queueUnregistered_runOps (q : Nat) (L : List Op) :
    ∀ s : ServiceState, queueUnregistered q s →
      (∀ g q2, Op.add g q2 ∈ L → ¬q2 = q) → queueUnregistered q (runOps L s) := by
  induction L with
  | nil => intro s h _; exact h
  | cons op rest ih =>
      intro s h hL
      refine ih (applyOp op s) ?_ ?_
      · refine queueUnregistered_applyOp q op s h ?_
        intro g heq
        subst heq
        exact hL g q (List.mem_cons_self _ _) rfl
      · intro g q2 hmem
        exact hL g q2 (List.mem_cons_of_mem op hmem)

theorem avoidsQueue_spec (q0 : Nat) (L : List Op) (h : avoidsQueue q0 L = true) :
    ∀ g q2, Op.add g q2 ∈ L → ¬q2 = q0 := by
  intro g q2 hmem
  have := List.all_eq_true.mp h _ hmem
  simpa using this

theorem streamStep_puts_subscribers (gid : String) (payload : Json) (s : ServiceState)
    (q : Nat) (m : Json) (hm : (q, m) ∈ (streamStep gid payload s).1) :
    ∃ ch, findCh gid s.active_streams = some ch ∧ q ∈ ch.subscribers := by
  cases hs : statusOf payload with
  | error e => simp [streamStep, hs] at hm
  | ok st =>
      simp only [streamStep, hs] at hm
      by_cases h1 : st = Json.str "finished" ∨ st = Json.str "game_over"
      · rw [if_pos h1] at hm
        cases hch : findCh gid s.active_streams with
        | none => rw [hch] at hm; simp at hm
        | some ch =>
            rw [hch] at hm
            exact ⟨ch, rfl, (mem_map_pair hm).1⟩
      · rw [if_neg h1] at hm
        by_cases h2 : st = Json.str "error"
        · rw [if_pos h2] at hm; simp at hm
        · rw [if_neg h2] at hm
          by_cases h3 : st = Json.str "not_found"
          · rw [if_pos h3] at hm
            cases hch : findCh gid s.active_streams with
            | none => rw [hch] at hm; simp at hm
            | some ch =>
                rw [hch] at hm
                exact ⟨ch, rfl, (mem_map_pair hm).1⟩
          · rw [if_neg h3] at hm
            by_cases h4 : st = Json.str "waiting"
            · rw [if_pos h4] at hm
              cases hch : findCh gid s.active_streams with
              | none => rw [hch] at hm; simp at hm
              | some ch =>
                  rw [hch] at hm
                  exact ⟨ch, rfl, (mem_map_pair hm).1⟩
            · rw [if_neg h4] at hm
              cases hch : findCh gid s.active_streams with
              | none => rw [hch] at hm; simp at hm
              | some ch =>
                  rw [hch] at hm
                  exact ⟨ch, rfl, (mem_map_pair hm).1⟩

/-- C10: the channel created by `start_game_stream` has an empty subscriber
set and its queue is the returned queue; for any operation sequence that
never passes the returned queue to `add_subscriber`, that queue is in no
channel's subscriber set; and the polling loop only puts messages on queues
that are in the subscriber set — so the returned queue receives no update
unless the caller registers it via `add_subscriber`. -/
theorem c10_returned_queue_never_subscribed (gid : String) (L : List Op)
    (hL : avoidsQueue (start_game_stream gid emptyState).2 L = true) :
    ((start_game_stream gid emptyState).2 = 1 ∧
     findCh gid ((start_game_stream gid emptyState).1).active_streams = some ⟨0, [], 1⟩) ∧
    (∀ g ch,
       findCh g (runOps L (start_game_stream gid emptyState).1).active_streams = some ch →
       (start_game_stream gid emptyState).2 ∉ ch.subscribers) ∧
    (∀ (g : String) (payload : Json) (t : ServiceState) (q : Nat) (m : Json),
       (q, m) ∈ (streamStep g payload t).1 →
       ∃ ch, findCh g t.active_streams = some ch ∧ q ∈ ch.subscribers) := by
  refine ⟨⟨rfl, ?_⟩, ?_, ?_⟩
  · simp [start_game_stream, emptyState, findCh]
  · have hbase : queueUnregistered 1 (start_game_stream gid emptyState).1 := by
      intro g ch hg
      simp only [start_game_stream, emptyState, findCh] at hg
      by_cases hgg : gid = g
      · rw [if_pos hgg] at hg
        injection hg with hg
        rw [← hg]
        simp
      · rw [if_neg hgg] at hg
        exact absurd hg (by simp)
    exact queueUnregistered_runOps 1 L (start_game_stream gid emptyState).1 hbase
      (avoidsQueue_spec _ L hL)
  · exact streamStep_puts_subscribers

/-- C10 witness: concrete run where queue 7 (not the returned queue 1) is
subscribed; the returned queue stays unregistered and only queue 7 is
delivered to. -/
theorem c10_returned_queue_never_subscribed_witness :
    ((start_game_stream "G1" emptyState).2 = 1 ∧
     findCh "G1" ((start_game_stream "G1" emptyState).1).active_streams = some ⟨0, [], 1⟩) ∧
    (1 : Nat) ∉ (⟨0, [7], 1⟩ : Channel).subscribers ∧
    ∃ ch, findCh "G1" sOneSub.active_streams = some ch ∧ 7 ∈ ch.subscribers := by
  obtain ⟨h1, h2, h3⟩ := c10_returned_queue_never_subscribed "G1"
    [Op.add "G1" 7, Op.start "G1", Op.add "G1" 7] (by decide)
  exact ⟨h1, h2 "G1" ⟨0, [7], 1⟩ (by decide),
    h3 "G1" scenarioPlayMsg sOneSub 7 scenarioPlayMsg (by decide)⟩

theorem ok_bind {α β : Type} (a : α) (f : α → Except String β) :
    (Except.ok a >>= f) = f a := rfl

theorem bind_eq_ok {α β : Type} {x : Except String α} {f : α → Except String β} {out : β}
    (h : x >>= f = Except.ok out) : ∃ a, x = Except.ok a ∧ f a = Except.ok out := by
  cases x with
  | error e => exact Except.noConfusion h
  | ok a => exact ⟨a, rfl, h⟩

theorem streamStep_puts_form (gid : String) (payload : Json) (s : ServiceState)
    (q : Nat) (m : Json) (hm : (q, m) ∈ (streamStep gid payload s).1) :
    m = payload ∨ m = gameOverMsg ∨ m = waitingStartMsg := by
  cases hs : statusOf payload with
  | error e => simp [streamStep, hs] at hm
  | ok st =>
      simp only [streamStep, hs] at hm
      by_cases h1 : st = Json.str "finished" ∨ st = Json.str "game_over"
      · rw [if_pos h1] at hm
        cases hch : findCh gid s.active_streams with
        | none => rw [hch] at hm; simp at hm
        | some ch =>
            rw [hch] at hm
            exact Or.inr (Or.inl (mem_map_pair hm).2)
      · rw [if_neg h1] at hm
        by_cases h2 : st = Json.str "error"
        · rw [if_pos h2] at hm; simp at hm
        · rw [if_neg h2] at hm
          by_cases h3 : st = Json.str "not_found"
          · rw [if_pos h3] at hm
            cases hch : findCh gid s.active_streams with
            | none => rw [hch] at hm; simp at hm
            | some ch =>
                rw [hch] at hm
                exact Or.inr (Or.inr (mem_map_pair hm).2)
          · rw [if_neg h3] at hm
            by_cases h4 : st = Json.str "waiting"
            · rw [if_pos h4] at hm
              cases hch : findCh gid s.active_streams with
              | none => rw [hch] at hm; simp at hm
              | some ch =>
                  rw [hch] at hm
                  exact Or.inl (mem_map_pair hm).2
            · rw [if_neg h4] at hm
              cases hch : findCh gid s.active_streams with
              | none => rw [hch] at hm; simp at hm
              | some ch =>
                  rw [hch] at hm
                  exact Or.inl (mem_map_pair hm).2

theorem format_ok_type (now : String) (data out : Json)
    (h : format_play_by_play now data = Except.ok out) :
    dictGetOr out "type" Json.null = Json.str "play" ∨
    dictGetOr out "type" Json.null = Json.str "waiting" ∨
    dictGetOr out "type" Json.null = Json.str "error" := by
  unfold format_play_by_play at h
  by_cases h0 : pyTruthy data = false
  · rw [if_pos h0] at h
    injection h with h
    subst h
    right; right; rfl
  · rw [if_neg h0] at h
    obtain ⟨p0, _, h⟩ := bind_eq_ok h
    by_cases h1 : pyTruthy p0 = false
    · rw [if_pos h1] at h
      injection h with h
      subst h
      right; left; rfl
    · rw [if_neg h1] at h
      cases p0 with
      | arr ps =>
          obtain ⟨cur, _, h⟩ := bind_eq_ok h
          obtain ⟨ev0, _, h⟩ := bind_eq_ok h
          by_cases h2 : pyTruthy ev0 = false
          · rw [if_pos h2] at h
            injection h with h
            subst h
            right; left; rfl
          · rw [if_neg h2] at h
            obtain ⟨latest, _, h⟩ := bind_eq_ok h
            obtain ⟨d0, _, h⟩ := bind_eq_ok h
            obtain ⟨et, _, h⟩ := bind_eq_ok h
            obtain ⟨d1, _, h⟩ := bind_eq_ok h
            obtain ⟨hasStats, _, h⟩ := bind_eq_ok h
            obtain ⟨d2, _, h⟩ := bind_eq_ok h
            obtain ⟨gameId, _, h⟩ := bind_eq_ok h
            obtain ⟨clock, _, h⟩ := bind_eq_ok h
            obtain ⟨quarter, _, h⟩ := bind_eq_ok h
            obtain ⟨home, _, h⟩ := bind_eq_ok h
            obtain ⟨hsc, _, h⟩ := bind_eq_ok h
            obtain ⟨away, _, h⟩ := bind_eq_ok h
            obtain ⟨asc, _, h⟩ := bind_eq_ok h
            obtain ⟨ts, _, h⟩ := bind_eq_ok h
            obtain ⟨et2, _, h⟩ := bind_eq_ok h
            obtain ⟨attr0, _, h⟩ := bind_eq_ok h
            obtain ⟨attr, _, h⟩ := bind_eq_ok h
            obtain ⟨stats2, _, h⟩ := bind_eq_ok h
            injection h with h
            subst h
            left; rfl
      | null => exact Except.noConfusion h
      | bool b => exact Except.noConfusion h
      | num n => exact Except.noConfusion h
      | str s2 => exact Except.noConfusion h
      | obj fs => exact Except.noConfusion h

/-- C8 (corrected): the messages the loop itself constructs have type
`waiting` or `game_over`; in the other branches the loop forwards the
fetched payload verbatim, so a delivered message carries a `type` in
play/waiting/game_over/error only when the payload does — which holds
whenever the payload is an output of `_format_play_by_play`, whose `.ok`
results always carry type `play`, `waiting`, or `error` (but not for raw
upstream payloads, per the counterexample). -/
theorem c8_messages_payload_or_constructed :
    (∀ (gid : String) (payload : Json) (s : ServiceState) (q : Nat) (m : Json),
       (q, m) ∈ (streamStep gid payload s).1 →
       m = payload ∨ m = gameOverMsg ∨ m = waitingStartMsg) ∧
    (∀ (now : String) (data out : Json),
       format_play_by_play now data = Except.ok out →
       dictGetOr out "type" Json.null = Json.str "play" ∨
       dictGetOr out "type" Json.null = Json.str "waiting" ∨
       dictGetOr out "type" Json.null = Json.str "error") ∧
    dictGetOr gameOverMsg "type" Json.null = Json.str "game_over" ∧
    dictGetOr waitingStartMsg "type" Json.null = Json.str "waiting" :=
  ⟨streamStep_puts_form, format_ok_type, rfl, rfl⟩

/-- C8 witness: a delivered message on a concrete poll is the payload
itself, and a concrete formatter output carries an allowed type. -/
theorem c8_messages_payload_or_constructed_witness :
    (scenarioPlayMsg = scenarioPlayMsg ∨ scenarioPlayMsg = gameOverMsg ∨
     scenarioPlayMsg = waitingStartMsg) ∧
    (dictGetOr errNoData "type" Json.null = Json.str "play" ∨
     dictGetOr errNoData "type" Json.null = Json.str "waiting" ∨
     dictGetOr errNoData "type" Json.null = Json.str "error") :=
  ⟨c8_messages_payload_or_constructed.1 "G1" scenarioPlayMsg sOneSub 7 scenarioPlayMsg
     (by decide),
   c8_messages_payload_or_constructed.2.1 "T" Json.null errNoData (by decide)⟩

theorem pyGetD_isDict (v : Json) (k : String) (d : Json) (h : isDict v = true) :
    pyGetD v k d = Except.ok (dictGetOr v k d) := by
  cases v <;> first
    | rfl
    | exact absurd h (by simp [isDict])

theorem maxByNumberGo_spec :
    ∀ (xs : List Json) (best : Json),
      (∀ p ∈ xs, pyGetD p "number" (Json.num 0) = Except.ok (Json.num (pnum p))) →
      ∃ c, maxByNumberGo xs best (Json.num (pnum best)) = Except.ok c ∧
        (c = best ∨ c ∈ xs) ∧ pnum best ≤ pnum c ∧ ∀ p ∈ xs, pnum p ≤ pnum c
  | [], best, _ => ⟨best, rfl, Or.inl rfl, le_refl _, by simp⟩
  | y :: ys, best, h => by
      have hy : pyGetD y "number" (Json.num 0) = Except.ok (Json.num (pnum y)) :=
        h y (List.mem_cons_self y ys)
      have hys : ∀ p ∈ ys, pyGetD p "number" (Json.num 0) = Except.ok (Json.num (pnum p)) :=
        fun p hp => h p (List.mem_cons_of_mem y hp)
      by_cases hgt : pnum best < pnum y
      · obtain ⟨c, hc, hmem, hle, hall⟩ := maxByNumberGo_spec ys y hys
        refine ⟨c, ?_, ?_, ?_, ?_⟩
        · simp only [maxByNumberGo, hy, ok_bind, pyGt]
          rw [if_pos (decide_eq_true hgt)]
          exact hc
        · rcases hmem with rfl | hm
          · exact Or.inr (List.mem_cons_self c ys)
          · exact Or.inr (List.mem_cons_of_mem y hm)
        · exact le_trans (le_of_lt hgt) hle
        · intro p hp
          rcases List.mem_cons.mp hp with rfl | hp2
          · exact hle
          · exact hall p hp2
      · obtain ⟨c, hc, hmem, hle, hall⟩ := maxByNumberGo_spec ys best hys
        refine ⟨c, ?_, ?_, hle, ?_⟩
        · simp only [maxByNumberGo, hy, ok_bind, pyGt]
          rw [if_neg (fun hcond => hgt (of_decide_eq_true hcond))]
          exact hc
        · rcases hmem with rfl | hm
          · exact Or.inl rfl
          · exact Or.inr (List.mem_cons_of_mem y hm)
        · intro p hp
          rcases List.mem_cons.mp hp with rfl | hp2
          · exact le_trans (le_of_not_lt hgt) hle
          · exact hall p hp2

theorem maxByNumber_spec (ps : List Json)
    (h : ∀ p ∈ ps, pyGetD p "number" (Json.num 0) = Except.ok (Json.num (pnum p)))
    (hne : ps ≠ []) :
    ∃ c, maxByNumber ps = Except.ok c ∧ c ∈ ps ∧ ∀ p ∈ ps, pnum p ≤ pnum c := by
  match ps with
  | [] => exact absurd rfl hne
  | x :: xs =>
      have hx : pyGetD x "number" (Json.num 0) = Except.ok (Json.num (pnum x)) :=
        h x (List.mem_cons_self x xs)
      obtain ⟨c, hc, hmem, hle, hall⟩ :=
        maxByNumberGo_spec xs x (fun p hp => h p (List.mem_cons_of_mem x hp))
      refine ⟨c, ?_, ?_, ?_⟩
      · simp only [maxByNumber, hx, ok_bind]
        exact hc
      · rcases hmem with rfl | hm
        · exact List.mem_cons_self c xs
        · exact List.mem_cons_of_mem x hm
      · intro p hp
        rcases List.mem_cons.mp hp with rfl | hp2
        · exact hle
        · exact hall p hp2

theorem describeShot_not_shot (latest d0 et : Json) (h : ¬et = Json.str "shot") :
    describeShot latest d0 et = Except.ok d0 := by
  simp [describeShot, h]

theorem isDict_obj {v : Json} (h : isDict v = true) : ∃ f, v = Json.obj f := by
  cases v <;> first
    | exact ⟨_, rfl⟩
    | exact absurd h (by simp [isDict])

theorem prefixPlayer_false (latest d1 : Json) :
    prefixPlayer latest d1 false = Except.ok d1 := rfl

/-- C9: for a payload whose `periods` list is non-empty (periods being dicts
with integer `number` keys) and whose highest-numbered period has a
non-empty events list ending in an event dict, classification is ACTIVE
(type `play`) built from the last event of the period selected by
`max(..., key=number)` — a period at least as high-numbered as every other,
regardless of list order — and a missing `description` field yields the
placeholder string `No description available` rather than an error. -/
theorem c9_active_from_last_event_of_highest_period (now : String)
    (fields cf lf : List (String × Json)) (ps es : List Json)
    (hper : fieldGet fields "periods" = some (Json.arr ps))
    (hnum : ∀ p ∈ ps, pyGetD p "number" (Json.num 0) = Except.ok (Json.num (pnum p)))
    (hmax : maxByNumber ps = Except.ok (Json.obj cf))
    (hev : fieldGet cf "events" = some (Json.arr es))
    (hlast : es.getLast? = some (Json.obj lf))
    (hdesc : fieldGet lf "description" = none)
    (het : fieldGet lf "event_type" = none)
    (hstats : fieldGet lf "statistics" = none)
    (hhome : isDict ((fieldGet fields "home").getD (Json.obj [])) = true)
    (haway : isDict ((fieldGet fields "away").getD (Json.obj [])) = true)
    (hattr : isDict ((fieldGet lf "attribution").getD (Json.obj [])) = true) :
    (Json.obj cf ∈ ps ∧ ∀ p ∈ ps, pnum p ≤ pnum (Json.obj cf)) ∧
    format_play_by_play now (Json.obj fields) = Except.ok (Json.obj
      [("type", Json.str "play"),
       ("game_id", (fieldGet fields "id").getD (Json.str "unknown")),
       ("clock", (fieldGet lf "clock").getD (Json.str "00:00")),
       ("quarter", (fieldGet cf "number").getD (Json.num 1)),
       ("home_score",
         dictGetOr ((fieldGet fields "home").getD (Json.obj [])) "points" (Json.num 0)),
       ("away_score",
         dictGetOr ((fieldGet fields "away").getD (Json.obj [])) "points" (Json.num 0)),
       ("last_play", Json.obj
         [("description", Json.str "No description available"),
          ("timestamp", (fieldGet lf "updated").getD (Json.str now)),
          ("event_type", Json.str ""),
          ("attribution",
            dictGetOr ((fieldGet lf "attribution").getD (Json.obj [])) "name" (Json.str "")),
          ("statistics", Json.arr [])])]) := by
  have hfne : fields ≠ [] := by
    intro hnil
    rw [hnil] at hper
    exact Option.noConfusion hper
  have hpsne : ps ≠ [] := by
    intro hnil
    rw [hnil] at hmax
    exact Except.noConfusion hmax
  have hesne : es ≠ [] := by
    intro hnil
    rw [hnil] at hlast
    exact Option.noConfusion hlast
  constructor
  · obtain ⟨c, hc, hmem, hall⟩ := maxByNumber_spec ps hnum hpsne
    have hco : Except.ok c = Except.ok (Json.obj cf) := hc.symm.trans hmax
    injection hco with hco
    exact ⟨hco ▸ hmem, fun p hp => hco ▸ hall p hp⟩
  · have ht1 : pyTruthy (Json.obj fields) = true := by simp [pyTruthy, hfne]
    have ht2 : pyTruthy (Json.arr ps) = true := by simp [pyTruthy, hpsne]
    have ht3 : pyTruthy (Json.arr es) = true := by simp [pyTruthy, hesne]
    have hd1 := describeShot_not_shot (Json.obj lf) (Json.str "No description available")
      Json.null (by simp)
    obtain ⟨hf, hfe⟩ := isDict_obj hhome
    obtain ⟨af, afe⟩ := isDict_obj haway
    obtain ⟨tf, tfe⟩ := isDict_obj hattr
    simp only [format_play_by_play, pyGetD, ht1, ht2, ht3, hper, hmax, hev, pyLastItem, hlast,
      hdesc, het, hstats, ok_bind, hd1, prefixPlayer_false, pyIn, Option.getD_some,
      Option.getD_none, Option.isSome_none, Bool.true_eq_false, if_false, hfe, afe, tfe,
      dictGetOr]

/-- C9 witness: periods listed highest-first (so the highest-numbered period
is not the last in list order), last event lacking a description. -/
theorem c9_active_from_last_event_of_highest_period_witness :
    (Json.obj [("number", Json.num 4), ("events", Json.arr [Json.obj [("clock", Json.str "05:30")]])] ∈
       [Json.obj [("number", Json.num 4), ("events", Json.arr [Json.obj [("clock", Json.str "05:30")]])],
        Json.obj [("number", Json.num 2), ("events", Json.arr [])]] ∧
     ∀ p ∈ [Json.obj [("number", Json.num 4), ("events", Json.arr [Json.obj [("clock", Json.str "05:30")]])],
        Json.obj [("number", Json.num 2), ("events", Json.arr [])]],
       pnum p ≤ pnum (Json.obj [("number", Json.num 4),
         ("events", Json.arr [Json.obj [("clock", Json.str "05:30")]])])) ∧
    format_play_by_play "T" (Json.obj [("id", Json.str "G1"),
      ("periods", Json.arr
        [Json.obj [("number", Json.num 4), ("events", Json.arr [Json.obj [("clock", Json.str "05:30")]])],
         Json.obj [("number", Json.num 2), ("events", Json.arr [])]])]) = Except.ok (Json.obj
      [("type", Json.str "play"),
       ("game_id", (fieldGet [("id", Json.str "G1"),
          ("periods", Json.arr
            [Json.obj [("number", Json.num 4), ("events", Json.arr [Json.obj [("clock", Json.str "05:30")]])],
             Json.obj [("number", Json.num 2), ("events", Json.arr [])]])] "id").getD (Json.str "unknown")),
       ("clock", (fieldGet [("clock", Json.str "05:30")] "clock").getD (Json.str "00:00")),
       ("quarter", (fieldGet [("number", Json.num 4),
          ("events", Json.arr [Json.obj [("clock", Json.str "05:30")]])] "number").getD (Json.num 1)),
       ("home_score",
         dictGetOr ((fieldGet [("id", Json.str "G1"),
           ("periods", Json.arr
             [Json.obj [("number", Json.num 4), ("events", Json.arr [Json.obj [("clock", Json.str "05:30")]])],
              Json.obj [("number", Json.num 2), ("events", Json.arr [])]])] "home").getD (Json.obj []))
           "points" (Json.num 0)),
       ("away_score",
         dictGetOr ((fieldGet [("id", Json.str "G1"),
           ("periods", Json.arr
             [Json.obj [("number", Json.num 4), ("events", Json.arr [Json.obj [("clock", Json.str "05:30")]])],
              Json.obj [("number", Json.num 2), ("events", Json.arr [])]])] "away").getD (Json.obj []))
           "points" (Json.num 0)),
       ("last_play", Json.obj
         [("description", Json.str "No description available"),
          ("timestamp", (fieldGet [("clock", Json.str "05:30")] "updated").getD (Json.str "T")),
          ("event_type", Json.str ""),
          ("attribution",
            dictGetOr ((fieldGet [("clock", Json.str "05:30")] "attribution").getD (Json.obj []))
              "name" (Json.str "")),
          ("statistics", Json.arr [])])]) :=
  c9_active_from_last_event_of_highest_period "T"
    [("id", Json.str "G1"),
     ("periods", Json.arr
       [Json.obj [("number", Json.num 4), ("events", Json.arr [Json.obj [("clock", Json.str "05:30")]])],
        Json.obj [("number", Json.num 2), ("events", Json.arr [])]])]
    [("number", Json.num 4), ("events", Json.arr [Json.obj [("clock", Json.str "05:30")]])]
    [("clock", Json.str "05:30")]
    [Json.obj [("number", Json.num 4), ("events", Json.arr [Json.obj [("clock", Json.str "05:30")]])],
     Json.obj [("number", Json.num 2), ("events", Json.arr [])]]
    [Json.obj [("clock", Json.str "05:30")]]
    (by decide) (by decide) (by decide) (by decide) (by decide) (by decide) (by decide)
    (by decide) (by decide) (by decide) (by decide)

end NbaCommentary
